import Mathlib

/-!
Verification development for the two command-line scrapers of this
repository (`src/scrape.py` and `src/scrape_reddit.py`).

The scripts are shallowly embedded as pure Lean functions.  External
effects (the crawl performed by the third-party library, the outcome of
`json.loads` on the model response, the success of a file write, the
process environment) are inputs gathered in a "world" record; a run is a
function from the world to the list of observable events it performs
(browser acquire/release, navigation, printed messages, file writes)
together with a Python-style outcome (normal return or an uncaught
exception).  The `async with` block of both scripts is embedded as a
combinator that brackets the body's events with an acquire and a
guaranteed release, which is exactly the semantics of an async context
manager: `__aexit__` runs on every exit path, exceptional or not.
-/

/-- JSON values, the possible results of Python's `json.loads`
(numbers are modelled as integers; no claim depends on floats). -/
inductive Json where
  | null
  | bool (b : Bool)
  | num (n : Int)
  | str (s : String)
  | arr (elems : List Json)
  | obj (fields : List (String × Json))

/-- The Python exceptions the embedded code can raise. -/
inductive PyExn where
  | valueError (msg : String)
  | attributeError
  | typeError
  | writeError
deriving Repr, DecidableEq

/-- Python truthiness of a decoded JSON value
(`None`, `False`, `0`, `""`, `[]`, `{}` are falsy). -/
def Json.truthy : Json → Bool
  | .null => false
  | .bool b => b
  | .num n => n != 0
  | .str s => s != ""
  | .arr xs => !xs.isEmpty
  | .obj fs => !fs.isEmpty

/-- Lookup in a Python dict built by `json.loads`: with duplicate keys the
last occurrence wins, as in CPython's object decoder. -/
def lookupLast (k : String) : List (String × Json) → Option Json
  | [] => none
  | (k', v) :: rest =>
    match lookupLast k rest with
    | some r => some r
    | none => if k' == k then some v else none

/-- Python `len` on a decoded JSON value: defined for strings, lists and
dicts, a `TypeError` otherwise. -/
def pyLen : Json → Except PyExn Nat
  | .str s => .ok s.length
  | .arr xs => .ok xs.length
  | .obj fs => .ok fs.length
  | _ => .error .typeError

/-- Python iteration on a decoded JSON value, mirroring `pyLen`'s domain:
a string yields its characters (as one-character strings), a list its
elements, a dict its keys. -/
def pyIter : Json → Except PyExn (List Json)
  | .str s => .ok (s.toList.map (fun c => Json.str (String.mk [c])))
  | .arr xs => .ok xs
  | .obj fs => .ok (fs.map (fun kv => Json.str kv.1))
  | _ => .error .typeError

/-- Python's `x or ""` for an optional string (`None` and `""` are falsy,
both yield `""`). -/
def pyOrEmpty : Option String → String
  | none => ""
  | some s => if s == "" then "" else s

/-- Python truthiness of an optional string (`if result.extracted_content:`). -/
def pyTruthyStr : Option String → Bool
  | none => false
  | some s => s != ""

/-! ## URL parsing (the fragment of `urllib.parse.urlparse` the code uses)

`scrape.py` uses only `urlparse(url).netloc`.  `urlsplit` strips a
leading `scheme:` when the text before the first colon starts with a
letter and consists of scheme characters, and then, when the remainder
starts with `//`, takes as the network location everything up to the
first `/`, `?` or `#`.  URLs are handled as character lists so that the
parsing lemmas are plain list inductions. -/

/-- Characters allowed in a URL scheme after the initial letter. -/
def schemeChar (c : Char) : Bool :=
  c.isAlpha || c.isDigit || c = '+' || c = '-' || c = '.'

/-- Strip a leading `scheme:` as `urlsplit` does. -/
def stripScheme (cs : List Char) : List Char :=
  match cs.takeWhile (fun c => c != ':') with
  | [] => cs
  | p :: rest =>
    if p.isAlpha && rest.all schemeChar && (p :: rest).length < cs.length then
      cs.drop ((p :: rest).length + 1)
    else cs

/-- Characters that may appear in a network location (everything up to
the first `/`, `?` or `#`). -/
def netlocChar (c : Char) : Bool :=
  c != '/' && c != '?' && c != '#'

/-- The network location (`netloc`) of a URL: after stripping the scheme,
when the remainder starts with `//`, everything up to `/`, `?` or `#`. -/
def netlocOf (cs : List Char) : List Char :=
  match stripScheme cs with
  | '/' :: '/' :: r => r.takeWhile netlocChar
  | _ => []

/-- Python's `netloc.replace(".", "_")`: a single-character replace is a
character-wise map. -/
def replaceDots (cs : List Char) : List Char :=
  cs.map (fun c => if c = '.' then '_' else c)

/-- The derived default output filename of `scrape.py`, on characters:
`urlparse(url).netloc.replace(".", "_")` followed by `".md"`. -/
def deriveChars (cs : List Char) : List Char :=
  replaceDots (netlocOf cs) ++ ".md".toList

/-- The derived default output filename of `scrape.py` line 33–34. -/
def deriveDefaultFilename (url : String) : String :=
  String.mk (deriveChars url.toList)

/-- The host of a network location in the usual URL sense (what
`urlparse(...).hostname` returns, up to lowercasing): the authority with
any `user@` prefix and any `:port` suffix removed.  This follows the
spec's word "host" and is used to compare the spec's phrasing with what
the code computes. -/
def hostOfNetloc (auth : List Char) : List Char :=
  let afterUser :=
    if auth.contains '@' then (auth.dropWhile (fun c => c ≠ '@')).drop 1 else auth
  afterUser.takeWhile (fun c => c ≠ ':')

/-! ## Observable events of a run -/

/-- Each `print` statement of the two scripts, as a tagged message
carrying its dynamic parts. -/
inductive Msg where
  | usage
  | usageExample1
  | usageExample2
  | scraping (url : String)
  | savedTo (path : String)
  | contentLength (n : Nat)
  | scrapeFailed (err : String)
  | crawling
  | crawlSuccess
  | statusCode (n : Int)
  | extractedCount (n : Nat)
  | postHeader (i : Nat)
  | postLine (label : String) (v : Json)
  | postPreview (v : Json)
  | blankLine
  | dataSaved
  | parseError (e : String)
  | rawContent (prefix500 : String)
  | noContentExtracted
  | rawMarkdownPreview (v : Option String)
  | crawlFailed (err : String)

/-- What a file write puts on disk: verbatim text for `f.write`, or a
JSON value serialized by `json.dump(..., indent=2)` for the pretty-printed
JSON file. -/
inductive FileData where
  | text (s : String)
  | jsonPretty (j : Json)

/-- The observable events of a run. -/
inductive Event where
  | acquire (headless verbose : Bool)
  | release
  | navigate (url : String)
  | printMsg (m : Msg)
  | writeFile (path : String) (data : FileData)

/-- Whether an event is the release of the browser session. -/
def Event.isRelease : Event → Bool
  | .release => true
  | _ => false

/-- Whether an event is a file write. -/
def Event.isWrite : Event → Bool
  | .writeFile _ _ => true
  | _ => false

/-- `async with AsyncWebCrawler(config=...) as crawler: body` — the
session is acquired, the body runs, and the session is released on every
exit path (normal or exceptional), exactly the guarantee of an async
context manager. -/
def withBrowser (headless verbose : Bool) (body : List Event × Except PyExn α) :
    List Event × Except PyExn α :=
  (Event.acquire headless verbose :: body.1 ++ [Event.release], body.2)

/-- The fields of the crawl result that the scripts read. -/
structure CrawlResult where
  success : Bool
  markdown : Option String
  extracted_content : Option String
  status_code : Int
  error_message : String

/-! ## `src/scrape.py` -/

/-- The external effects a `scrape.py` run depends on: what the crawl
returns, and whether the output-file write succeeds. -/
structure ScrapeWorld where
  crawl : CrawlResult
  writeOk : Bool

/-- `scrape_to_markdown(url, output_file)` from `src/scrape.py`:
browser config is `headless=True, verbose=False`; inside the `async with`
the crawl runs, and on success the markdown (`result.markdown or ""`) is
written to `output_file` — or, when that is `None` (or empty), to the
filename derived from the URL's netloc — and returned; on failure the
error is printed and `None` is returned. -/
def scrape_to_markdown (url : String) (output_file : Option String)
    (w : ScrapeWorld) : List Event × Except PyExn (Option String) :=
  withBrowser true false (
    let pre := [Event.printMsg (.scraping url), Event.navigate url]
    if w.crawl.success then
      let markdown_content := pyOrEmpty w.crawl.markdown
      let out :=
        match output_file with
        | none => deriveDefaultFilename url
        | some f => if f == "" then deriveDefaultFilename url else f
      if w.writeOk then
        (pre ++ [Event.writeFile out (.text markdown_content),
                 Event.printMsg (.savedTo out),
                 Event.printMsg (.contentLength markdown_content.length)],
         .ok (some markdown_content))
      else
        (pre, .error .writeError)
    else
      (pre ++ [Event.printMsg (.scrapeFailed w.crawl.error_message)], .ok none))

/-- `main()` from `src/scrape.py`: with fewer than two entries in
`sys.argv` it prints the usage text and exits with code 1; otherwise it
runs `scrape_to_markdown` with `sys.argv[1]` and, when present,
`sys.argv[2]`.  The second component is the process exit code: 0 for a
normal return, 1 both for `sys.exit(1)` and for an uncaught exception. -/
def scrapeMain (argv : List String) (w : ScrapeWorld) : List Event × Nat :=
  if argv.length < 2 then
    ([Event.printMsg .usage, Event.printMsg .usageExample1,
      Event.printMsg .usageExample2], 1)
  else
    let url := argv.getD 1 ""
    let output_file := if argv.length > 2 then some (argv.getD 2 "") else none
    let (tr, res) := scrape_to_markdown url output_file w
    match res with
    | .ok _ => (tr, 0)
    | .error _ => (tr, 1)

/-! ## `src/scrape_reddit.py` -/

/-- The external effects a `scrape_reddit.py` run depends on: the
environment variable `GEMINI_API_KEY`, what the crawl returns, the
outcome of `json.loads` on the extracted content, and whether the JSON
file write succeeds. -/
structure RedditWorld where
  gemini_api_key : Option String
  crawl : CrawlResult
  parse : Except String Json
  writeOk : Bool

/-- The normalization of the parsed model response, lines 106–109 of
`src/scrape_reddit.py`: a list is taken as the posts directly; a dict is
asked for `"posts"` with default `[]` via `.get`; any other value has no
`.get` attribute, so Python raises `AttributeError` (which the
surrounding `except json.JSONDecodeError` does not catch). -/
def normalizePosts : Json → Except PyExn Json
  | .arr xs => .ok (.arr xs)
  | .obj fs => .ok ((lookupLast "posts" fs).getD (.arr []))
  | _ => .error .attributeError

/-- The per-post print block, lines 114–122: `--- Post i ---` is printed
first; each field is printed via `post.get(field, 'N/A')`, which raises
`AttributeError` when the post is not a dict; a truthy `content_preview`
is sliced with `[:100]`, which raises `TypeError` unless it is a string
or a list.  Returns the messages actually printed before any
exception. -/
def printPostMsgs (i : Nat) (post : Json) : List Msg × Option PyExn :=
  match post with
  | .obj fs =>
    let get1 := fun k => (lookupLast k fs).getD (.str "N/A")
    let base := [Msg.postHeader i,
                 Msg.postLine "Title" (get1 "title"),
                 Msg.postLine "Author" (get1 "author"),
                 Msg.postLine "Upvotes" (get1 "upvotes"),
                 Msg.postLine "Comments" (get1 "comments_count"),
                 Msg.postLine "Posted" (get1 "time_posted")]
    let preview := (lookupLast "content_preview" fs).getD Json.null
    if preview.truthy then
      match preview with
      | .str s => (base ++ [Msg.postPreview (.str (s.take 100)), Msg.blankLine], none)
      | .arr xs => (base ++ [Msg.postPreview (.arr (xs.take 100)), Msg.blankLine], none)
      | _ => (base, some .typeError)
    else (base ++ [Msg.blankLine], none)
  | _ => ([Msg.postHeader i], some .attributeError)

/-- The `for i, post in enumerate(posts, 1):` loop, returning the
messages printed before any exception stops it. -/
def printLoop (i : Nat) : List Json → List Msg × Option PyExn
  | [] => ([], none)
  | p :: rest =>
    match printPostMsgs i p with
    | (ms, some e) => (ms, some e)
    | (ms, none) =>
      let (ms2, e2) := printLoop (i + 1) rest
      (ms ++ ms2, e2)

/-- `result.markdown[:1000] if result.markdown else 'No markdown'` from
line 134: `some` carries the 1000-character prefix, `none` stands for
the `'No markdown'` marker. -/
def rawMarkdownOf : Option String → Option String
  | none => none
  | some m => if m == "" then none else some (m.take 1000)

/-- Lines 101–134 of `src/scrape_reddit.py`: the handling of
`result.extracted_content` after a successful crawl.  The `try` block
catches only `json.JSONDecodeError`; `AttributeError`/`TypeError` from
normalization or the print loop, and a failing file write, propagate. -/
def handleExtracted (w : RedditWorld) : List Event × Except PyExn Unit :=
  match w.crawl.extracted_content with
  | none => ([Event.printMsg .noContentExtracted,
              Event.printMsg (.rawMarkdownPreview (rawMarkdownOf w.crawl.markdown))],
             .ok ())
  | some ec =>
    if ec == "" then
      ([Event.printMsg .noContentExtracted,
        Event.printMsg (.rawMarkdownPreview (rawMarkdownOf w.crawl.markdown))], .ok ())
    else
      match w.parse with
      | .error e =>
        ([Event.printMsg (.parseError e),
          Event.printMsg (.rawContent (ec.take 500))], .ok ())
      | .ok data =>
        match normalizePosts data with
        | .error e => ([], .error e)
        | .ok posts =>
          match pyLen posts with
          | .error e => ([], .error e)
          | .ok n =>
            let ev1 := [Event.printMsg (.extractedCount n)]
            match pyIter posts with
            | .error e => (ev1, .error e)
            | .ok items =>
              let (ms, le) := printLoop 1 items
              let ev2 := ev1 ++ ms.map Event.printMsg
              match le with
              | some e => (ev2, .error e)
              | none =>
                if w.writeOk then
                  (ev2 ++ [Event.writeFile "reddit_posts.json"
                             (.jsonPretty (.obj [("posts", posts)])),
                           Event.printMsg .dataSaved], .ok ())
                else (ev2, .error .writeError)

/-- `scrape_reddit_internship()` from `src/scrape_reddit.py`: the
credential is checked first (raising `ValueError` before anything else
happens); the browser config is `headless=False, verbose=True`; inside
the `async with` the fixed URL is crawled and the result handled. -/
def scrape_reddit_internship (w : RedditWorld) :
    List Event × Except PyExn Unit :=
  if pyTruthyStr w.gemini_api_key then
    withBrowser false true (
      let pre := [Event.printMsg .crawling,
                  Event.navigate "https://www.reddit.com/r/internships/new/"]
      if w.crawl.success then
        let pre2 := pre ++ [Event.printMsg .crawlSuccess,
                            Event.printMsg (.statusCode w.crawl.status_code)]
        let (tr, res) := handleExtracted w
        (pre2 ++ tr, res)
      else
        (pre ++ [Event.printMsg (.crawlFailed w.crawl.error_message)], .ok ()))
  else
    ([], .error (.valueError "GEMINI_API_KEY not found in environment variables. Please set it in .env file."))

/-! ## Statement vocabulary -/

/-- A syntactically plausible URL scheme: a letter followed by scheme
characters. -/
def validScheme : List Char → Bool
  | [] => false
  | c :: rest => c.isAlpha && rest.all schemeChar

/-- A URL remainder that may follow the authority: empty, or starting
with `/`, `?` or `#`. -/
def authorityEnd : List Char → Bool
  | [] => true
  | c :: _ => c = '/' || c = '?' || c = '#'

/-- The number of browser releases in a trace. -/
def releaseCount (tr : List Event) : Nat :=
  (tr.filter Event.isRelease).length

/-- Whether a trace performs no file write at all. -/
def noWrite (tr : List Event) : Bool :=
  tr.all (fun e => !e.isWrite)

/-! ## Theorems -/

/-- C3: if `GEMINI_API_KEY` is absent from the environment,
`scrape_reddit_internship` raises the configuration `ValueError`
immediately, with an empty event trace — so before any browser launch,
navigation, or model-client call. -/
theorem credential_checked_eagerly (w : RedditWorld)
    (h : w.gemini_api_key = none) :
    scrape_reddit_internship w =
      ([], .error (.valueError
        "GEMINI_API_KEY not found in environment variables. Please set it in .env file.")) := by
  simp [scrape_reddit_internship, pyTruthyStr, h]

/-- A run of `scrape_reddit_internship` in a world with no credential:
the trace is empty and the `ValueError` is raised. -/
theorem credential_checked_eagerly_witness :
    scrape_reddit_internship
      { gemini_api_key := none
      , crawl := { success := true, markdown := some "md",
                   extracted_content := some "[]", status_code := 200,
                   error_message := "" }
      , parse := .ok (Json.arr []), writeOk := true } =
      ([], .error (.valueError
        "GEMINI_API_KEY not found in environment variables. Please set it in .env file.")) :=
  credential_checked_eagerly _ rfl

/-- C7: with fewer than two `argv` entries the scrape entry point prints
the usage text and exits with code 1; when the crawl fails it prints the
error detail and exits with code 0 — no distinct non-zero exit code for
a failed scrape. -/
theorem scrape_cli_exit_codes (argv : List String) (w : ScrapeWorld) :
    (argv.length < 2 →
      scrapeMain argv w =
        ([Event.printMsg .usage, Event.printMsg .usageExample1,
          Event.printMsg .usageExample2], 1)) ∧
    (2 ≤ argv.length → w.crawl.success = false →
      (scrapeMain argv w).2 = 0 ∧
      Event.printMsg (.scrapeFailed w.crawl.error_message) ∈ (scrapeMain argv w).1) := by
  constructor
  · intro h
    simp [scrapeMain, h]
  · intro h hs
    simp [scrapeMain, Nat.not_lt.mpr h, scrape_to_markdown, withBrowser, hs]

/-- The scrape CLI at concrete inputs: no URL argument gives exit code 1
with the usage text; a failing crawl gives exit code 0 with the error
printed. -/
theorem scrape_cli_exit_codes_witness :
    scrapeMain ["scrape.py"]
        { crawl := { success := true, markdown := some "m",
                     extracted_content := none, status_code := 200,
                     error_message := "" }, writeOk := true } =
      ([Event.printMsg .usage, Event.printMsg .usageExample1,
        Event.printMsg .usageExample2], 1) ∧
    ((scrapeMain ["scrape.py", "https://example.com"]
        { crawl := { success := false, markdown := none,
                     extracted_content := none, status_code := 0,
                     error_message := "boom" }, writeOk := true }).2 = 0 ∧
      Event.printMsg (.scrapeFailed "boom") ∈
        (scrapeMain ["scrape.py", "https://example.com"]
          { crawl := { success := false, markdown := none,
                       extracted_content := none, status_code := 0,
                       error_message := "boom" }, writeOk := true }).1) :=
  ⟨(scrape_cli_exit_codes _ _).1 (by decide),
   (scrape_cli_exit_codes _ _).2 (by decide) rfl⟩

/-- C8: on a successful crawl with empty or missing markdown
(`result.markdown` is `None` or `""`), `scrape_to_markdown` writes the
empty string verbatim to the output file and returns it — never an
error. -/
theorem empty_markdown_empty_output (url : String) (out : Option String)
    (w : ScrapeWorld) (hs : w.crawl.success = true)
    (hm : w.crawl.markdown = none ∨ w.crawl.markdown = some "")
    (hw : w.writeOk = true) :
    (scrape_to_markdown url out w).2 = .ok (some "") ∧
    ∃ p, Event.writeFile p (.text "") ∈ (scrape_to_markdown url out w).1 := by
  have hmd : pyOrEmpty w.crawl.markdown = "" := by
    rcases hm with h | h <;> simp [pyOrEmpty, h]
  rcases out with _ | f
  · constructor
    · simp [scrape_to_markdown, withBrowser, hs, hw, hmd]
    · exact ⟨deriveDefaultFilename url, by
        simp [scrape_to_markdown, withBrowser, hs, hw, hmd]⟩
  · by_cases hf : f = ""
    · constructor
      · simp [scrape_to_markdown, withBrowser, hs, hw, hmd, hf]
      · exact ⟨deriveDefaultFilename url, by
          simp [scrape_to_markdown, withBrowser, hs, hw, hmd, hf]⟩
    · constructor
      · simp [scrape_to_markdown, withBrowser, hs, hw, hmd, hf]
      · exact ⟨f, by simp [scrape_to_markdown, withBrowser, hs, hw, hmd, hf]⟩

/-- A successful crawl of `https://example.com` whose markdown is `None`
returns and writes the empty string. -/
theorem empty_markdown_empty_output_witness :
    (scrape_to_markdown "https://example.com" none
        { crawl := { success := true, markdown := none,
                     extracted_content := none, status_code := 200,
                     error_message := "" }, writeOk := true }).2 = .ok (some "") ∧
    ∃ p, Event.writeFile p (.text "") ∈
      (scrape_to_markdown "https://example.com" none
        { crawl := { success := true, markdown := none,
                     extracted_content := none, status_code := 200,
                     error_message := "" }, writeOk := true }).1 :=
  empty_markdown_empty_output _ _ _ rfl (Or.inl rfl) rfl

/-- C10: when the crawl reports failure, `scrape_to_markdown` performs
no file write and returns `None`; when it reports success (and the write
goes through) it returns exactly the markdown string that was written. -/
theorem scrape_failure_frame (url : String) (out : Option String)
    (w : ScrapeWorld) :
    (w.crawl.success = false →
      (scrape_to_markdown url out w).2 = .ok none ∧
      noWrite (scrape_to_markdown url out w).1 = true) ∧
    (w.crawl.success = true → w.writeOk = true →
      (scrape_to_markdown url out w).2 = .ok (some (pyOrEmpty w.crawl.markdown)) ∧
      ∃ p, Event.writeFile p (.text (pyOrEmpty w.crawl.markdown)) ∈
        (scrape_to_markdown url out w).1) := by
  constructor
  · intro hs
    constructor
    · simp [scrape_to_markdown, withBrowser, hs]
    · simp [noWrite, scrape_to_markdown, withBrowser, hs, Event.isWrite]
  · intro hs hw
    rcases out with _ | f
    · constructor
      · simp [scrape_to_markdown, withBrowser, hs, hw]
      · exact ⟨deriveDefaultFilename url, by
          simp [scrape_to_markdown, withBrowser, hs, hw]⟩
    · by_cases hf : f = ""
      · constructor
        · simp [scrape_to_markdown, withBrowser, hs, hw, hf]
        · exact ⟨deriveDefaultFilename url, by
            simp [scrape_to_markdown, withBrowser, hs, hw, hf]⟩
      · constructor
        · simp [scrape_to_markdown, withBrowser, hs, hw, hf]
        · exact ⟨f, by simp [scrape_to_markdown, withBrowser, hs, hw, hf]⟩

/-- A failed crawl leaves the filesystem untouched and returns `None`;
the same inputs with a successful crawl return the written markdown. -/
theorem scrape_failure_frame_witness :
    ((scrape_to_markdown "https://example.com" none
        { crawl := { success := false, markdown := some "m",
                     extracted_content := none, status_code := 0,
                     error_message := "err" }, writeOk := true }).2 = .ok none ∧
      noWrite (scrape_to_markdown "https://example.com" none
        { crawl := { success := false, markdown := some "m",
                     extracted_content := none, status_code := 0,
                     error_message := "err" }, writeOk := true }).1 = true) ∧
    ((scrape_to_markdown "https://example.com" none
        { crawl := { success := true, markdown := some "m",
                     extracted_content := none, status_code := 200,
                     error_message := "" }, writeOk := true }).2 =
        .ok (some (pyOrEmpty (some "m"))) ∧
      ∃ p, Event.writeFile p (.text (pyOrEmpty (some "m"))) ∈
        (scrape_to_markdown "https://example.com" none
          { crawl := { success := true, markdown := some "m",
                       extracted_content := none, status_code := 200,
                       error_message := "" }, writeOk := true }).1) :=
  ⟨(scrape_failure_frame _ _ _).1 rfl, (scrape_failure_frame _ _ _).2 rfl rfl⟩

/-- C2 counterexample: a top-level JSON value that is neither an array
nor a mapping — here `null`, which the model can return as valid JSON —
does not normalize to the empty record list; `data.get("posts", [])`
raises `AttributeError` instead. -/
theorem normalize_posts_counterexample :
    normalizePosts Json.null = .error .attributeError ∧
    normalizePosts Json.null ≠ .ok (Json.arr []) := by
  constructor
  · rfl
  · intro h
    simp [normalizePosts] at h

/-- C2 amended: an array normalizes to itself and a mapping to its
`posts` entry (empty when absent), as claimed; but any other top-level
value (string, number, boolean, null) raises an uncaught
`AttributeError` rather than yielding the empty sequence. -/
theorem normalize_posts_amended (j : Json) :
    (∀ xs, j = Json.arr xs → normalizePosts j = .ok (Json.arr xs)) ∧
    (∀ fs, j = Json.obj fs →
      normalizePosts j = .ok ((lookupLast "posts" fs).getD (Json.arr []))) ∧
    ((∀ xs, j ≠ Json.arr xs) → (∀ fs, j ≠ Json.obj fs) →
      normalizePosts j = .error .attributeError) := by
  refine ⟨?_, ?_, ?_⟩
  · intro xs h
    subst h
    rfl
  · intro fs h
    subst h
    rfl
  · intro ha ho
    cases j with
    | arr xs => exact absurd rfl (ha xs)
    | obj fs => exact absurd rfl (ho fs)
    | null => rfl
    | bool b => rfl
    | num n => rfl
    | str s => rfl

/-- Normalization evaluated on the three concrete shapes: a top-level
array, a mapping with a `posts` key, and a mapping without one. -/
theorem normalize_posts_amended_witness :
    normalizePosts (Json.arr [Json.null]) = .ok (Json.arr [Json.null]) ∧
    normalizePosts (Json.obj [("posts", Json.arr [Json.num 1])]) =
      .ok (Json.arr [Json.num 1]) ∧
    normalizePosts (Json.obj [("other", Json.null)]) = .ok (Json.arr []) := by
  refine ⟨(normalize_posts_amended _).1 [Json.null] rfl, ?_, ?_⟩
  · have h := (normalize_posts_amended (Json.obj [("posts", Json.arr [Json.num 1])])).2.1
      [("posts", Json.arr [Json.num 1])] rfl
    simpa [lookupLast] using h
  · have h := (normalize_posts_amended (Json.obj [("other", Json.null)])).2.1
      [("other", Json.null)] rfl
    simpa [lookupLast] using h

/-- A run in which the crawl succeeds, markdown is available, but the
model response does not parse as JSON. -/
def parseFailWorld : RedditWorld :=
  { gemini_api_key := some "key"
  , crawl := { success := true, markdown := some "# raw page markdown",
               extracted_content := some "not json", status_code := 200,
               error_message := "" }
  , parse := .error "Expecting value: line 1 column 1 (char 0)"
  , writeOk := true }

/-- C1 counterexample: with invalid JSON from the model the run does
complete normally, but it produces no artifact at all — no file is
written, and neither the raw markdown nor the `No content extracted`
marker is printed (the script prints the unparseable model output
instead). -/
theorem parse_error_artifact_counterexample :
    (scrape_reddit_internship parseFailWorld).2 = .ok () ∧
    noWrite (scrape_reddit_internship parseFailWorld).1 = true ∧
    (scrape_reddit_internship parseFailWorld).1.all
      (fun e => match e with
        | .printMsg .noContentExtracted => false
        | .printMsg (.rawMarkdownPreview _) => false
        | _ => true) = true := by
  refine ⟨rfl, rfl, rfl⟩

/-- C1 amended: invalid JSON from the model is recoverable in the sense
that the `JSONDecodeError` is caught and the run returns normally (the
crawl-level success path is kept and the browser is released), printing
the parse error and the first 500 characters of the raw model output;
but no fallback artifact is produced: no file is written, and neither
the raw markdown nor the `No content extracted` marker appears. -/
theorem parse_error_recoverable (w : RedditWorld) (ec e : String)
    (hk : pyTruthyStr w.gemini_api_key = true)
    (hs : w.crawl.success = true)
    (he : w.crawl.extracted_content = some ec)
    (hne : (ec == "") = false)
    (hp : w.parse = .error e) :
    (scrape_reddit_internship w).2 = .ok () ∧
    Event.printMsg (.parseError e) ∈ (scrape_reddit_internship w).1 ∧
    Event.printMsg (.rawContent (ec.take 500)) ∈ (scrape_reddit_internship w).1 ∧
    noWrite (scrape_reddit_internship w).1 = true := by
  refine ⟨?_, ?_, ?_, ?_⟩ <;>
    simp [scrape_reddit_internship, withBrowser, handleExtracted, noWrite,
          Event.isWrite, hk, hs, he, hne, hp]

/-- The amended C1 statement evaluated on the concrete parse-failure
world. -/
theorem parse_error_recoverable_witness :
    (scrape_reddit_internship parseFailWorld).2 = .ok () ∧
    Event.printMsg (.parseError "Expecting value: line 1 column 1 (char 0)") ∈
      (scrape_reddit_internship parseFailWorld).1 ∧
    Event.printMsg (.rawContent (String.take "not json" 500)) ∈
      (scrape_reddit_internship parseFailWorld).1 ∧
    noWrite (scrape_reddit_internship parseFailWorld).1 = true :=
  parse_error_recoverable parseFailWorld "not json"
    "Expecting value: line 1 column 1 (char 0)" rfl rfl rfl rfl rfl

/-- A run in which the crawl succeeds and the model returns `null` —
valid JSON that is neither an array nor a mapping. -/
def scalarParseWorld : RedditWorld :=
  { gemini_api_key := some "key"
  , crawl := { success := true, markdown := some "md",
               extracted_content := some "null", status_code := 200,
               error_message := "" }
  , parse := .ok Json.null
  , writeOk := true }

/-- C9 counterexample: the model's response parses (to `null`), yet no
`reddit_posts.json` is written — normalization raises an uncaught
`AttributeError` before the write is reached. -/
theorem reddit_persist_counterexample :
    (scrape_reddit_internship scalarParseWorld).2 = .error .attributeError ∧
    noWrite (scrape_reddit_internship scalarParseWorld).1 = true := ⟨rfl, rfl⟩

/-- C9 amended: when the crawl succeeds, the model's response parses,
normalization succeeds, and the run completes without an uncaught
exception (which also requires every printed record to be a mapping and
the file write to go through), the script writes `reddit_posts.json`
containing exactly the pretty-printed object `{"posts": <normalized
records>}`. -/
theorem reddit_persist_amended (w : RedditWorld) (ec : String)
    (data posts : Json)
    (hk : pyTruthyStr w.gemini_api_key = true)
    (hs : w.crawl.success = true)
    (he : w.crawl.extracted_content = some ec)
    (hne : (ec == "") = false)
    (hp : w.parse = .ok data)
    (hn : normalizePosts data = .ok posts)
    (hdone : (scrape_reddit_internship w).2 = .ok ()) :
    Event.writeFile "reddit_posts.json"
        (FileData.jsonPretty (Json.obj [("posts", posts)])) ∈
      (scrape_reddit_internship w).1 := by
  have hres : (handleExtracted w).2 = .ok () := by
    rcases hhe : handleExtracted w with ⟨tr, res⟩
    simpa [scrape_reddit_internship, withBrowser, hk, hs, hhe] using hdone
  have key : Event.writeFile "reddit_posts.json"
      (FileData.jsonPretty (Json.obj [("posts", posts)])) ∈
      (handleExtracted w).1 := by
    rcases hlen : pyLen posts with e | n
    · have hbad : (handleExtracted w).2 = .error e := by
        simp [handleExtracted, he, hne, hp, hn, hlen]
      rw [hbad] at hres
      simp at hres
    · rcases hiter : pyIter posts with e | items
      · have hbad : (handleExtracted w).2 = .error e := by
          simp [handleExtracted, he, hne, hp, hn, hlen, hiter]
        rw [hbad] at hres
        simp at hres
      · rcases hpl : printLoop 1 items with ⟨ms, le⟩
        rcases le with _ | e
        · rcases hwk : w.writeOk with _ | _
          · have hbad : (handleExtracted w).2 = .error .writeError := by
              simp [handleExtracted, he, hne, hp, hn, hlen, hiter, hpl, hwk]
            rw [hbad] at hres
            simp at hres
          · simp [handleExtracted, he, hne, hp, hn, hlen, hiter, hpl, hwk]
        · have hbad : (handleExtracted w).2 = .error e := by
            simp [handleExtracted, he, hne, hp, hn, hlen, hiter, hpl]
          rw [hbad] at hres
          simp at hres
  rcases hhe : handleExtracted w with ⟨tr, res⟩
  rw [hhe] at key
  simp only [scrape_reddit_internship, withBrowser, hk, hs, hhe, if_pos]
  simp [List.mem_append, List.mem_cons, key]

/-- A fully successful run: the model returns
`{"posts": [{"title": "A", "author": "B"}]}`. -/
def redditHappyWorld : RedditWorld :=
  { gemini_api_key := some "key"
  , crawl := { success := true, markdown := some "md",
               extracted_content := some "model-output", status_code := 200,
               error_message := "" }
  , parse := .ok (Json.obj [("posts", Json.arr
      [Json.obj [("title", Json.str "A"), ("author", Json.str "B")]])])
  , writeOk := true }

/-- The amended C9 statement evaluated on the fully successful world:
`reddit_posts.json` is written with exactly
`{"posts": [{"title": "A", "author": "B"}]}`. -/
theorem reddit_persist_amended_witness :
    Event.writeFile "reddit_posts.json"
        (FileData.jsonPretty (Json.obj [("posts", Json.arr
          [Json.obj [("title", Json.str "A"), ("author", Json.str "B")]])])) ∈
      (scrape_reddit_internship redditHappyWorld).1 :=
  reddit_persist_amended redditHappyWorld "model-output"
    (Json.obj [("posts", Json.arr
      [Json.obj [("title", Json.str "A"), ("author", Json.str "B")]])])
    (Json.arr [Json.obj [("title", Json.str "A"), ("author", Json.str "B")]])
    rfl rfl rfl rfl rfl rfl rfl

/-- Whether a trace contains no browser release. -/
def noRelease (tr : List Event) : Bool :=
  tr.all (fun e => !e.isRelease)

/-- The extracted-content handling emits prints and file writes only —
never a browser release (the release belongs to the `async with`
combinator alone). -/
theorem handleExtracted_no_release (w : RedditWorld) :
    noRelease (handleExtracted w).1 = true := by
  unfold handleExtracted noRelease
  rcases w.crawl.extracted_content with _ | ec
  · simp [Event.isRelease]
  · rcases hne : ec == "" with _ | _
    · rcases hp : w.parse with e | data
      · simp [hne, hp, Event.isRelease]
      · rcases hn : normalizePosts data with e | posts
        · simp [hne, hp, hn]
        · rcases hlen : pyLen posts with e | n
          · simp [hne, hp, hn, hlen]
          · rcases hiter : pyIter posts with e | items
            · simp [hne, hp, hn, hlen, hiter, Event.isRelease]
            · rcases hpl : printLoop 1 items with ⟨ms, le⟩
              rcases le with _ | e
              · rcases hwk : w.writeOk with _ | _
                · simp [hne, hp, hn, hlen, hiter, hpl, hwk,
                        List.all_map, Function.comp, Event.isRelease]
                · simp [hne, hp, hn, hlen, hiter, hpl, hwk,
                        List.all_map, Function.comp, Event.isRelease]
              · simp [hne, hp, hn, hlen, hiter, hpl,
                      List.all_map, Function.comp, Event.isRelease]
    · simp [hne, Event.isRelease]

/-- A trace whose body performs no release, wrapped in the `async with`
combinator, contains exactly one release. -/
theorem releaseCount_withBrowser (hl vb : Bool)
    (body : List Event × Except PyExn α) (h : noRelease body.1 = true) :
    releaseCount (withBrowser hl vb body).1 = 1 := by
  have hnil : body.1.filter Event.isRelease = [] := by
    refine List.filter_eq_nil_iff.mpr ?_
    intro e he
    have := (List.all_eq_true.mp h) e he
    simp at this
    simp [this]
  simp [releaseCount, withBrowser, List.filter_append, hnil, Event.isRelease]

/-- C4: on every exit path — success, crawl failure, extraction failure
(caught or uncaught), or persistence failure — the browser session is
released exactly once: once the session is acquired, each run's trace
contains exactly one release event, whatever the world does. -/
theorem browser_released_exactly_once :
    (∀ (url : String) (out : Option String) (w : ScrapeWorld),
      releaseCount (scrape_to_markdown url out w).1 = 1) ∧
    (∀ w : RedditWorld, pyTruthyStr w.gemini_api_key = true →
      releaseCount (scrape_reddit_internship w).1 = 1) := by
  constructor
  · intro url out w
    refine releaseCount_withBrowser _ _ _ ?_
    rcases hs : w.crawl.success with _ | _
    · simp [hs, noRelease, Event.isRelease]
    · rcases hwk : w.writeOk with _ | _
      · simp [hs, hwk, noRelease, Event.isRelease]
      · rcases out with _ | f
        · simp [hs, hwk, noRelease, Event.isRelease]
        · by_cases hf : f = "" <;> simp [hs, hwk, hf, noRelease, Event.isRelease]
  · intro w hk
    rw [scrape_reddit_internship, if_pos hk]
    refine releaseCount_withBrowser _ _ _ ?_
    rcases hs : w.crawl.success with _ | _
    · simp [hs, noRelease, Event.isRelease]
    · rcases hhe : handleExtracted w with ⟨tr, res⟩
      have hnr := handleExtracted_no_release w
      rw [hhe] at hnr
      simp only [noRelease] at hnr
      simp [hs, hhe, noRelease, Event.isRelease, List.all_append, hnr]
      intro x hx
      have hx' := (List.all_eq_true.mp hnr) x hx
      simpa [Event.isRelease] using hx'

/-- Release counts at concrete worlds: a failed scrape, a successful
scrape, and a reddit run that crashes with an uncaught
`AttributeError`, each release the browser exactly once. -/
theorem browser_released_exactly_once_witness :
    releaseCount (scrape_to_markdown "https://example.com" none
      { crawl := { success := false, markdown := none,
                   extracted_content := none, status_code := 0,
                   error_message := "err" }, writeOk := true }).1 = 1 ∧
    releaseCount (scrape_reddit_internship scalarParseWorld).1 = 1 :=
  ⟨browser_released_exactly_once.1 _ _ _,
   browser_released_exactly_once.2 scalarParseWorld rfl⟩

/-- A reddit-script run whose crawl fails (the simplest run that gets as
far as acquiring the browser). -/
def redditCrawlFailWorld : RedditWorld :=
  { gemini_api_key := some "key"
  , crawl := { success := false, markdown := none, extracted_content := none,
               status_code := 0, error_message := "net down" }
  , parse := .error "n/a", writeOk := true }

/-- C6 counterexample: the reddit entry point acquires the browser with
`headless=False` (`src/scrape_reddit.py` line 34) — its trace starts
with a non-headless acquire, and contains no headless acquire at all. -/
theorem headless_counterexample :
    (scrape_reddit_internship redditCrawlFailWorld).1.head? =
      some (Event.acquire false true) ∧
    (scrape_reddit_internship redditCrawlFailWorld).1.all
      (fun e => match e with
        | Event.acquire h _ => !h
        | _ => true) = true := ⟨rfl, rfl⟩

/-- C6 amended: `scrape.py` drives the browser headless
(`headless=True, verbose=False`), but `scrape_reddit.py` acquires it
with `headless=False, verbose=True`, deliberately showing the browser
window. -/
theorem entry_points_headless_amended :
    (∀ (url : String) (out : Option String) (w : ScrapeWorld),
      (scrape_to_markdown url out w).1.head? =
        some (Event.acquire true false)) ∧
    (∀ w : RedditWorld, pyTruthyStr w.gemini_api_key = true →
      (scrape_reddit_internship w).1.head? =
        some (Event.acquire false true)) := by
  constructor
  · intro url out w
    simp [scrape_to_markdown, withBrowser]
  · intro w hk
    simp [scrape_reddit_internship, withBrowser, hk]

/-- The first trace event of each script at concrete inputs: a headless
acquire for `scrape.py`, a non-headless one for `scrape_reddit.py`. -/
theorem entry_points_headless_amended_witness :
    (scrape_to_markdown "https://example.com" none
      { crawl := { success := false, markdown := none,
                   extracted_content := none, status_code := 0,
                   error_message := "err" }, writeOk := true }).1.head? =
      some (Event.acquire true false) ∧
    (scrape_reddit_internship redditCrawlFailWorld).1.head? =
      some (Event.acquire false true) :=
  ⟨entry_points_headless_amended.1 _ _ _,
   entry_points_headless_amended.2 redditCrawlFailWorld rfl⟩

/-- `takeWhile` runs past a prefix whose elements all satisfy the
predicate. -/
theorem takeWhile_all_append {α : Type} (p : α → Bool) (l1 l2 : List α)
    (h : l1.all p = true) :
    (l1 ++ l2).takeWhile p = l1 ++ l2.takeWhile p := by
  induction l1 with
  | nil => simp
  | cons a t ih =>
    have ha : p a = true := by
      have := List.all_eq_true.mp h a (by simp)
      simpa using this
    have ht : t.all p = true := by
      rw [List.all_eq_true]
      intro x hx
      exact List.all_eq_true.mp h x (by simp [hx])
    simp [List.takeWhile_cons, ha, ih ht]

/-- A letter is not a colon. -/
theorem alpha_ne_colon (c : Char) (h : c.isAlpha = true) : (c != ':') = true := by
  by_cases hc : c = ':'
  · subst hc
    exact absurd h (by decide)
  · simp [bne_iff_ne, hc]

/-- A scheme character is not a colon. -/
theorem schemeChar_ne_colon (c : Char) (h : schemeChar c = true) :
    (c != ':') = true := by
  by_cases hc : c = ':'
  · subst hc
    exact absurd h (by decide)
  · simp [bne_iff_ne, hc]

/-- Stripping the scheme from `scheme ++ ":" ++ rest` leaves `rest` when
the scheme is a letter followed by scheme characters. -/
theorem stripScheme_scheme (c : Char) (cs rest : List Char)
    (hc : c.isAlpha = true) (hcs : cs.all schemeChar = true) :
    stripScheme ((c :: cs) ++ ':' :: rest) = rest := by
  have hall : (c :: cs).all (fun x => x != ':') = true := by
    rw [List.all_eq_true]
    intro x hx
    rcases List.mem_cons.mp hx with h | h
    · subst h
      exact alpha_ne_colon x hc
    · exact schemeChar_ne_colon x (List.all_eq_true.mp hcs x h)
  have htw : ((c :: cs) ++ ':' :: rest).takeWhile (fun x => x != ':') = c :: cs := by
    rw [takeWhile_all_append _ _ _ hall]
    simp [List.takeWhile_cons]
  have hdrop : ((c :: cs) ++ ':' :: rest).drop ((c :: cs).length + 1) = rest := by
    have : (c :: cs) ++ ':' :: rest = ((c :: cs) ++ [':']) ++ rest := by simp
    rw [this]
    have hlen : ((c :: cs) ++ [':']).length = (c :: cs).length + 1 := by simp
    rw [← hlen]
    exact List.drop_left _ _
  unfold stripScheme
  rw [htw]
  have hlt : (c :: cs).length < ((c :: cs) ++ ':' :: rest).length := by
    simp
  simp [hc, hcs, hlt, hdrop]

/-- C5 amended: for a URL assembled as `scheme://` followed by an
authority (netloc) and an optional `/path`, `?query` or `#fragment`
remainder, the derived default filename is the full authority —
including any userinfo or port, not just the host — with every `.`
replaced by `_`, suffixed with `.md`; derivation is a pure function of
the URL, hence deterministic. -/
theorem default_filename_from_netloc (scheme auth path : List Char)
    (hsch : validScheme scheme = true)
    (hauth : auth.all netlocChar = true)
    (hpath : authorityEnd path = true) :
    deriveChars (scheme ++ ':' :: '/' :: '/' :: (auth ++ path)) =
      replaceDots auth ++ ".md".toList := by
  rcases scheme with _ | ⟨c, cs⟩
  · exact absurd hsch (by simp [validScheme])
  · have hcc : c.isAlpha = true ∧ cs.all schemeChar = true := by
      simpa [validScheme] using hsch
    have h1 : stripScheme ((c :: cs) ++ ':' :: '/' :: '/' :: (auth ++ path)) =
        '/' :: '/' :: (auth ++ path) :=
      stripScheme_scheme c cs _ hcc.1 hcc.2
    have h2 : (auth ++ path).takeWhile netlocChar = auth := by
      rw [takeWhile_all_append _ _ _ hauth]
      rcases path with _ | ⟨p, ps⟩
      · simp
      · have hp : netlocChar p = false := by
          have hpor : (p = '/' ∨ p = '?') ∨ p = '#' := by
            simpa [authorityEnd] using hpath
          rcases hpor with (h | h) | h <;> subst h <;> rfl
        simp [List.takeWhile_cons, hp]
    have h3 : netlocOf ((c :: cs) ++ ':' :: '/' :: '/' :: (auth ++ path)) =
        (auth ++ path).takeWhile netlocChar := by
      unfold netlocOf
      rw [h1]
      rfl
    unfold deriveChars
    rw [h3, h2]

/-- C5 counterexample: for the valid URL `https://example.com:8080` the
code derives `example_com:8080.md` — the netloc keeps the port — while
the URL's host with dots replaced would give `example_com.md`; the two
differ. -/
theorem default_filename_host_counterexample :
    deriveChars ("https://example.com:8080".toList) =
      "example_com:8080.md".toList ∧
    replaceDots (hostOfNetloc (netlocOf "https://example.com:8080".toList)) ++
        ".md".toList = "example_com.md".toList ∧
    "example_com:8080.md".toList ≠ "example_com.md".toList :=
  ⟨by decide, by decide, by decide⟩

/-- The amended C5 statement at the spec's own example: `scrape.py` with
`https://example.com` and no output file derives `example_com.md`. -/
theorem default_filename_from_netloc_witness :
    deriveDefaultFilename "https://example.com" = "example_com.md" := by
  have hurl : "https://example.com".toList =
      "https".toList ++ ':' :: '/' :: '/' ::
        ("example.com".toList ++ ([] : List Char)) := by decide
  have h := default_filename_from_netloc "https".toList "example.com".toList []
    (by decide) (by decide) rfl
  unfold deriveDefaultFilename
  rw [hurl, h]
  decide
